import Mathlib

/-!
Verification development for the remote validation orchestrator
(`src/gameify/main.py`).

The program opens one SSH session to a bastion host, runs a seven-module
diagnostic bash script encoded as a single `$'...'` token, waits for the
remote exit status, retrieves the remote artifact file over SFTP, and
returns its text (or a `Connection failed: ...` string on any exception).

The embedding below models:
* `ssh_to_bastion` as an explicit computation over an environment of
  success/failure flags for each fallible step (connect, exec_command,
  open_sftp, sftp.get, local read), threading a ghost state that records
  whether the connection is open, how many sessions were opened, the
  local artifact, and a trace of the operations performed;
* the `$'...'` script encoder of `main` (character-level string replaces)
  together with an ANSI-C decoder modelled from the bash specification;
* the remote bash script of `main` as a function from the outcome of each
  module's check command to the list of lines of the remote artifact file.
-/

/-- One observable operation performed by `ssh_to_bastion`, in program
order: a successful `connect`, the `exec_command` submission, the blocking
`recv_exit_status` wait, opening the SFTP channel, the `sftp.get` transfer,
closing the SFTP channel, closing the SSH client, and reading the local
copy of the artifact. -/
inductive SshEvent where
  | connect
  | execCmd
  | waitExit
  | sftpOpen
  | sftpGet
  | sftpClose
  | sshClose
  | readLocal
deriving DecidableEq

/-- Environment of one run of `ssh_to_bastion`: for each fallible step of
the `try` block, whether it succeeds, and the text of the exception it
raises when it fails; plus the content of the remote artifact file that a
successful transfer and read would deliver. -/
structure SshEnv where
  connectOk : Bool
  connectErr : String
  execOk : Bool
  execErr : String
  sftpOk : Bool
  sftpErr : String
  getOk : Bool
  getErr : String
  readOk : Bool
  readErr : String
  fileText : String
deriving DecidableEq

/-- Ghost state threaded through `ssh_to_bastion`: whether the underlying
transport connection is open when the function returns, how many sessions
were opened, the local copy of the artifact (if the transfer completed),
and the trace of operations performed. -/
structure SshState where
  connOpen : Bool
  opened : Nat
  localFile : Option String
  trace : List SshEvent
deriving DecidableEq

/-- The `try` block of `ssh_to_bastion` (src/gameify/main.py lines 24-46):
connect, exec_command, recv_exit_status, open_sftp, sftp.get, close the
SFTP channel, close the SSH client, read the downloaded local file, and
return its text.  Any failing step raises, modelled as `Except.error` with
the exception text, leaving the ghost state exactly as it was at the
moment the exception escaped the `try` block. -/
def sshBody (env : SshEnv) : Except String String × SshState :=
  if env.connectOk then
    let s1 : SshState := ⟨true, 1, none, [SshEvent.connect]⟩
    if env.execOk then
      let s2 : SshState := { s1 with trace := s1.trace ++ [SshEvent.execCmd, SshEvent.waitExit] }
      if env.sftpOk then
        let s3 : SshState := { s2 with trace := s2.trace ++ [SshEvent.sftpOpen] }
        if env.getOk then
          let s4 : SshState :=
            { s3 with trace := s3.trace ++ [SshEvent.sftpGet], localFile := some env.fileText }
          let s5 : SshState :=
            { s4 with trace := s4.trace ++ [SshEvent.sftpClose, SshEvent.sshClose],
                      connOpen := false }
          let s6 : SshState := { s5 with trace := s5.trace ++ [SshEvent.readLocal] }
          if env.readOk then (Except.ok env.fileText, s6)
          else (Except.error env.readErr, s6)
        else (Except.error env.getErr, s3)
      else (Except.error env.sftpErr, s2)
    else (Except.error env.execErr, s1)
  else (Except.error env.connectErr, ⟨false, 0, none, []⟩)

/-- `ssh_to_bastion` (src/gameify/main.py lines 5-48): run the `try`
block; the catch-all `except Exception as e` converts any raised exception
into the string `"Connection failed: " ++ e` and returns it. -/
def ssh_to_bastion (env : SshEnv) : String × SshState :=
  match sshBody env with
  | (Except.ok out, s) => (out, s)
  | (Except.error e, s) => ("Connection failed: " ++ e, s)

/-- All five fallible steps of the run succeed. -/
def runOk (env : SshEnv) : Bool :=
  env.connectOk && env.execOk && env.sftpOk && env.getOk && env.readOk

/-- The tail of `main` (src/gameify/main.py lines 210-219): it calls
`ssh_to_bastion`, prints the result, and falls off the end of the
function.  There is no `sys.exit` anywhere, so the Python process exit
status is 0 whenever `main` returns, which it always does because
`ssh_to_bastion` catches every exception.  The pair is (printed result,
process exit status). -/
def mainRun (env : SshEnv) : String × Nat :=
  let result := (ssh_to_bastion env).1
  (result, 0)

/-- C3 counterexample: the claim asserts the connection is closed on every
exit path, including every raised exception.  In the run where `connect`
succeeds but `exec_command` raises, the catch-all `except` returns the
error string without ever calling `close()`, so the connection is still
open when `ssh_to_bastion` returns. -/
theorem c3_counterexample :
    ((ssh_to_bastion ⟨true, "", false, "session broken", true, "", true, "", true, "", "art"⟩).2.connOpen
      = true)
    ∧ (ssh_to_bastion ⟨true, "", false, "session broken", true, "", true, "", true, "", "art"⟩).1
      = "Connection failed: " ++ "session broken" := by
  exact ⟨rfl, rfl⟩

/-- C3 amended: every run opens at most one session, and the connection is
closed on the normal return path, on a local-file read failure (which
occurs after `close()`), and when `connect` itself fails; it remains open
exactly when `exec_command`, `open_sftp`, or `sftp.get` raises after a
successful `connect`, because the `except` branch returns without closing
it. -/
theorem c3_session_lifecycle (env : SshEnv) :
    (ssh_to_bastion env).2.opened ≤ 1
    ∧ (ssh_to_bastion env).2.connOpen
      = (env.connectOk && (!env.execOk || !env.sftpOk || !env.getOk)) := by
  rcases env with ⟨c, ce, e, ee, s, se, g, ge, r, re, ft⟩
  cases c <;> cases e <;> cases s <;> cases g <;> cases r <;>
    simp [ssh_to_bastion, sshBody]

/-- C4 counterexample: the claim asserts the process exit status is
non-zero exactly when the run ends with a connection or transport failure.
In the run where `connect` is refused, `ssh_to_bastion` returns the
connection-failure string, `main` merely prints it and returns, and the
process exit status is 0. -/
theorem c4_counterexample :
    (mainRun ⟨false, "auth rejected", true, "", true, "", true, "", true, "", ""⟩).2 = 0
    ∧ (mainRun ⟨false, "auth rejected", true, "", true, "", true, "", true, "", ""⟩).1
      = "Connection failed: " ++ "auth rejected" := by
  exact ⟨rfl, rfl⟩

/-- C4 amended: the process exit status is 0 whenever `main` runs to
completion, including runs that end with a connection or transport
failure; failures are reported only in the printed output, never through
the exit status (there is no `sys.exit` and every exception is caught in
`ssh_to_bastion`). -/
theorem c4_exit_always_zero (env : SshEnv) : (mainRun env).2 = 0 := rfl

/-- C5: `ssh_to_bastion` never propagates an exception: when all five
fallible steps succeed it returns the retrieved artifact text, and when
any step fails it returns a single human-readable string of the form
`"Connection failed: " ++ message` — no failure is silently reported as
the artifact text of a successful run. -/
theorem c5_result_policy (env : SshEnv) :
    (runOk env = true → (ssh_to_bastion env).1 = env.fileText)
    ∧ (runOk env = false →
        ∃ m, (ssh_to_bastion env).1 = "Connection failed: " ++ m) := by
  rcases env with ⟨c, ce, e, ee, s, se, g, ge, r, re, ft⟩
  cases c <;> cases e <;> cases s <;> cases g <;> cases r <;>
    refine ⟨fun h => ?_, fun h => ?_⟩ <;>
    first
      | rfl
      | exact ⟨_, rfl⟩
      | simp [runOk] at h

/-- C5 witness: a fully successful run returns the artifact text, and a
run whose transfer step raises returns a `Connection failed:` string. -/
theorem c5_witness :
    (ssh_to_bastion ⟨true, "", true, "", true, "", true, "", true, "", "hello artifact"⟩).1
      = "hello artifact"
    ∧ ∃ m, (ssh_to_bastion ⟨true, "", true, "", true, "", false, "no such file", true, "", ""⟩).1
      = "Connection failed: " ++ m := by
  exact ⟨(c5_result_policy _).1 rfl, (c5_result_policy _).2 rfl⟩

/-- C6: in every run in which the SFTP transfer happens at all, the
blocking `recv_exit_status` wait occurs strictly before it in the
operation trace: the transfer never starts before the remote process has
exited. -/
theorem c6_wait_before_get (env : SshEnv)
    (h : SshEvent.sftpGet ∈ (ssh_to_bastion env).2.trace) :
    (ssh_to_bastion env).2.trace.findIdx (fun ev => ev == SshEvent.waitExit)
      < (ssh_to_bastion env).2.trace.findIdx (fun ev => ev == SshEvent.sftpGet) := by
  rcases env with ⟨c, ce, e, ee, s, se, g, ge, r, re, ft⟩
  cases c <;> cases e <;> cases s <;> cases g <;> cases r <;>
    simp_all [ssh_to_bastion, sshBody] <;> decide

/-- C6 witness: in the fully successful run the transfer occurs and the
wait on the exit status precedes it. -/
theorem c6_witness :
    SshEvent.sftpGet ∈ (ssh_to_bastion ⟨true, "", true, "", true, "", true, "", true, "", "a"⟩).2.trace
    ∧ (ssh_to_bastion ⟨true, "", true, "", true, "", true, "", true, "", "a"⟩).2.trace.findIdx
        (fun ev => ev == SshEvent.waitExit)
      < (ssh_to_bastion ⟨true, "", true, "", true, "", true, "", true, "", "a"⟩).2.trace.findIdx
        (fun ev => ev == SshEvent.sftpGet) := by
  refine ⟨by decide, c6_wait_before_get _ (by decide)⟩

/-- C7: when the connection itself fails (unreachable host or refused
authentication), the run returns the connection-failure message, performs
no remote operation at all (empty trace: no command executed, no remote
mutation), and creates no local artifact file. -/
theorem c7_connect_failure_frame (env : SshEnv) (h : env.connectOk = false) :
    (ssh_to_bastion env).1 = "Connection failed: " ++ env.connectErr
    ∧ (ssh_to_bastion env).2.trace = []
    ∧ (ssh_to_bastion env).2.localFile = none := by
  rcases env with ⟨c, ce, e, ee, s, se, g, ge, r, re, ft⟩
  subst h
  exact ⟨rfl, rfl, rfl⟩

/-- C7 witness: a run with a refused connection, instantiated. -/
theorem c7_witness :
    (ssh_to_bastion ⟨false, "no route to host", true, "", true, "", true, "", true, "", ""⟩).1
      = "Connection failed: " ++ "no route to host"
    ∧ (ssh_to_bastion ⟨false, "no route to host", true, "", true, "", true, "", true, "", ""⟩).2.trace
      = []
    ∧ (ssh_to_bastion ⟨false, "no route to host", true, "", true, "", true, "", true, "", ""⟩).2.localFile
      = none := by
  exact c7_connect_failure_frame _ rfl

/-- C10: whatever step of `ssh_to_bastion` raises — connection, command
execution, SFTP channel opening, file transfer, or reading the local
copy — the returned string is exactly `"Connection failed: "` followed by
that exception's text, and only a fully successful run returns the
artifact text; the error message structure is the same for every failure
kind. -/
theorem c10_error_message_shape (env : SshEnv) :
    (ssh_to_bastion env).1 =
      (if env.connectOk then
        (if env.execOk then
          (if env.sftpOk then
            (if env.getOk then
              (if env.readOk then env.fileText
               else "Connection failed: " ++ env.readErr)
             else "Connection failed: " ++ env.getErr)
           else "Connection failed: " ++ env.sftpErr)
         else "Connection failed: " ++ env.execErr)
       else "Connection failed: " ++ env.connectErr) := by
  rcases env with ⟨c, ce, e, ee, s, se, g, ge, r, re, ft⟩
  cases c <;> cases e <;> cases s <;> cases g <;> cases r <;> rfl

/-- `pat` is a prefix of the second list. -/
def isPrefixL : List Char → List Char → Bool
  | [], _ => true
  | _ :: _, [] => false
  | a :: as, b :: bs => a == b && isPrefixL as bs

/-- `pat` occurs as a contiguous substring of the list. -/
def substrAux (pat : List Char) : List Char → Bool
  | [] => isPrefixL pat []
  | c :: cs => isPrefixL pat (c :: cs) || substrAux pat cs

/-- `pat` occurs as a contiguous substring of `s`.  This models a `grep`
of a pattern that contains no regular-expression metacharacters, and the
plain substring matching used by the module-0 check. -/
def hasSubstr (pat s : String) : Bool := substrAux pat.data s.data

/-- The pattern of the presence check guarding the `~/.bashrc` append
(src/gameify/main.py line 83): `grep -q 'ROX_CENTRAL_ADDRESS=' ~/.bashrc`. -/
def roxKey : String := "ROX_CENTRAL_ADDRESS="

/-- The line appended to `~/.bashrc` by the remote bootstrap
(src/gameify/main.py line 84), after Python f-string brace doubling is
resolved. -/
def roxExportLine : String :=
  "export ROX_CENTRAL_ADDRESS=\"$\x7bACS_ROUTE#https://\x7d\" ; ROX_CENTRAL_ADDRESS=\"$\x7bROX_CENTRAL_ADDRESS#http://\x7d\""

/-- The `grep -q 'ROX_CENTRAL_ADDRESS=' ~/.bashrc` presence check: some
line of the file contains the pattern as a substring (a missing file is
the empty list of lines, on which grep fails). -/
def bashrcHasKey (lines : List String) : Bool :=
  lines.any (fun l => hasSubstr roxKey l)

/-- The remote bootstrap step (src/gameify/main.py lines 83-85): append
the export line to `~/.bashrc` unless some line already contains
`ROX_CENTRAL_ADDRESS=`. -/
def bootstrapStep (lines : List String) : List String :=
  if bashrcHasKey lines then lines else lines ++ [roxExportLine]

/-- The appended export line itself matches the guard pattern, so a file
that was just bootstrapped passes the presence check. -/
theorem bashrcHasKey_after_append (lines : List String) :
    bashrcHasKey (lines ++ [roxExportLine]) = true := by
  simp [bashrcHasKey, List.any_append]
  exact Or.inr (by decide)

/-- C8: the `~/.bashrc` bootstrap is idempotent: running it twice gives
the same file as running it once, and when the key was initially absent
the net effect of two runs is exactly one appended export line, because
the appended line itself contains `ROX_CENTRAL_ADDRESS=` and therefore
satisfies the guarding presence check on the second run. -/
theorem c8_bootstrap_idempotent (lines : List String) :
    bootstrapStep (bootstrapStep lines) = bootstrapStep lines
    ∧ (bashrcHasKey lines = false →
        bootstrapStep (bootstrapStep lines) = lines ++ [roxExportLine]) := by
  by_cases h : bashrcHasKey lines = true
  · refine ⟨?_, fun hf => by simp [h] at hf⟩
    simp [bootstrapStep, h]
  · have h' : bashrcHasKey lines = false := by
      cases hb : bashrcHasKey lines
      · rfl
      · exact absurd hb h
    have hstep : bootstrapStep lines = lines ++ [roxExportLine] := by
      simp [bootstrapStep, h']
    have hsecond : bootstrapStep (lines ++ [roxExportLine]) = lines ++ [roxExportLine] := by
      simp [bootstrapStep, bashrcHasKey_after_append]
    exact ⟨by rw [hstep, hsecond], fun _ => by rw [hstep, hsecond]⟩

/-- C8 witness: bootstrapping an initially missing (empty) `~/.bashrc`
twice yields a file with exactly the one export line. -/
theorem c8_witness :
    bootstrapStep (bootstrapStep []) = bootstrapStep []
    ∧ bootstrapStep (bootstrapStep []) = [] ++ [roxExportLine] := by
  exact ⟨(c8_bootstrap_idempotent []).1, (c8_bootstrap_idempotent []).2 rfl⟩

/-- Python `str.replace(c, repl)` for a single-character pattern: every
occurrence of the character `c` is replaced by `repl`. -/
def replaceChar (c : Char) (repl : List Char) : List Char → List Char
  | [] => []
  | a :: s => (if a = c then repl else [a]) ++ replaceChar c repl s

/-- The script encoder of `main` (src/gameify/main.py line 208):
`command.replace("\\", "\\\\").replace("'", "\\'").replace("\n", "\\n").replace("\r", "\\r")` —
escape backslashes first, then single quotes, then literal newlines, then
carriage returns. -/
def encodeScript (s : List Char) : List Char :=
  replaceChar '\r' ['\\', 'r']
    (replaceChar '\n' ['\\', 'n']
      (replaceChar '\'' ['\\', '\'']
        (replaceChar '\\' ['\\', '\\'] s)))

/-- The ANSI-C quoted token built by `main` (src/gameify/main.py line
209): `"bash -c $" + "'" + escaped + "'"` hands the remote shell the
single token `$'escaped'`. -/
def ansiCQuote (s : List Char) : List Char :=
  '$' :: '\'' :: (encodeScript s ++ ['\''])

/-- Value of a hexadecimal digit character. -/
def hexVal (c : Char) : Option Nat :=
  if '0' ≤ c ∧ c ≤ '9' then some (c.toNat - 48)
  else if 'a' ≤ c ∧ c ≤ 'f' then some (c.toNat - 87)
  else if 'A' ≤ c ∧ c ≤ 'F' then some (c.toNat - 55)
  else none

/-- Value of an octal digit character. -/
def octVal (c : Char) : Option Nat :=
  if '0' ≤ c ∧ c ≤ '7' then some (c.toNat - 48) else none

/-- Accumulate up to `n` further digits (first argument of the
recursion), in the given base, onto an already-read value; returns how
many digits were consumed and the resulting value. -/
def takeDigits (f : Char → Option Nat) (base : Nat) : Nat → Nat → List Char → Nat × Nat
  | 0, acc, _ => (0, acc)
  | _ + 1, acc, [] => (0, acc)
  | n + 1, acc, c :: cs =>
    match f c with
    | some v =>
      let r := takeDigits f base n (base * acc + v) cs
      (r.1 + 1, r.2)
    | none => (0, acc)

/-- Prepend a decoded character to the result of scanning the rest of the
token body. -/
def consHd (c : Char) : Option (List Char × List Char) → Option (List Char × List Char)
  | some (d, r) => some (c :: d, r)
  | none => none

/-- Prepend two characters (an escape sequence bash leaves unchanged) to
the result of scanning the rest of the token body. -/
def consHd2 (c1 c2 : Char) : Option (List Char × List Char) → Option (List Char × List Char)
  | some (d, r) => some (c1 :: c2 :: d, r)
  | none => none

/-- Modelled from the spec: the remote shell's decoding of the body of an
ANSI-C quoted string `$'...'` (the decoder is the remote bash, not code of
this repository; the spec calls it "ANSI-C decoding by the remote shell").
Given the characters after the opening `$'`, scan up to the first
unescaped single quote, interpreting the backslash escape sequences of
bash ANSI-C quoting: `\a \b \e \E \f \n \r \t \v \\ \' \" \?`, `\xHH`
(1-2 hex digits), `\uHHHH` (1-4 hex digits), `\UHHHHHHHH` (1-8 hex
digits), `\nnn` (1-3 octal digits, reduced mod 256 as bash emits a byte),
and `\cX` (control character); an unknown escape sequence is kept
verbatim, and code points Lean's `Char` cannot represent map to `\0` via
`Char.ofNat`.  Returns the decoded content together with the characters
after the closing quote, or `none` when the token body is unterminated. -/
def scanAnsiC : List Char → Option (List Char × List Char)
  | [] => none
  | a :: rest =>
    if a = '\'' then some ([], rest)
    else if a = '\\' then
      match rest with
      | [] => none
      | b :: rest2 =>
        if b = 'a' then consHd (Char.ofNat 7) (scanAnsiC rest2)
        else if b = 'b' then consHd (Char.ofNat 8) (scanAnsiC rest2)
        else if b = 'e' then consHd (Char.ofNat 27) (scanAnsiC rest2)
        else if b = 'E' then consHd (Char.ofNat 27) (scanAnsiC rest2)
        else if b = 'f' then consHd (Char.ofNat 12) (scanAnsiC rest2)
        else if b = 'n' then consHd '\n' (scanAnsiC rest2)
        else if b = 'r' then consHd '\r' (scanAnsiC rest2)
        else if b = 't' then consHd '\t' (scanAnsiC rest2)
        else if b = 'v' then consHd (Char.ofNat 11) (scanAnsiC rest2)
        else if b = '\\' then consHd '\\' (scanAnsiC rest2)
        else if b = '\'' then consHd '\'' (scanAnsiC rest2)
        else if b = '"' then consHd '"' (scanAnsiC rest2)
        else if b = '?' then consHd '?' (scanAnsiC rest2)
        else if b = 'x' then
          match rest2 with
          | [] => none
          | c1 :: rest3 =>
            match hexVal c1 with
            | some v1 =>
              let t := takeDigits hexVal 16 1 v1 rest3
              consHd (Char.ofNat (t.2 % 256)) (scanAnsiC (rest3.drop t.1))
            | none => consHd2 '\\' 'x' (scanAnsiC (c1 :: rest3))
        else if b = 'u' then
          match rest2 with
          | [] => none
          | c1 :: rest3 =>
            match hexVal c1 with
            | some v1 =>
              let t := takeDigits hexVal 16 3 v1 rest3
              consHd (Char.ofNat t.2) (scanAnsiC (rest3.drop t.1))
            | none => consHd2 '\\' 'u' (scanAnsiC (c1 :: rest3))
        else if b = 'U' then
          match rest2 with
          | [] => none
          | c1 :: rest3 =>
            match hexVal c1 with
            | some v1 =>
              let t := takeDigits hexVal 16 7 v1 rest3
              consHd (Char.ofNat t.2) (scanAnsiC (rest3.drop t.1))
            | none => consHd2 '\\' 'U' (scanAnsiC (c1 :: rest3))
        else if b = 'c' then
          match rest2 with
          | [] => none
          | x :: rest3 => consHd (Char.ofNat (x.toUpper.toNat % 64)) (scanAnsiC rest3)
        else
          match octVal b with
          | some v1 =>
            let t := takeDigits octVal 8 2 v1 rest2
            consHd (Char.ofNat (t.2 % 256)) (scanAnsiC (rest2.drop t.1))
          | none => consHd2 '\\' b (scanAnsiC rest2)
    else consHd a (scanAnsiC rest)
termination_by cs => cs.length
decreasing_by all_goals (simp_wf <;> omega)

/-- Modelled from the spec: decoding of one ANSI-C quoted token: the
remote shell recognises the leading `$'` and then scans the quoted body. -/
def ansiCDecodeToken (tok : List Char) : Option (List Char × List Char) :=
  match tok with
  | '$' :: '\'' :: rest => scanAnsiC rest
  | _ => none

/-- What the four sequential `str.replace` calls of the encoder do to one
character of the input. -/
def escChar (c : Char) : List Char :=
  if c = '\\' then ['\\', '\\']
  else if c = '\'' then ['\\', '\'']
  else if c = '\n' then ['\\', 'n']
  else if c = '\r' then ['\\', 'r']
  else [c]

theorem replaceChar_append (c : Char) (repl l1 l2 : List Char) :
    replaceChar c repl (l1 ++ l2) = replaceChar c repl l1 ++ replaceChar c repl l2 := by
  induction l1 with
  | nil => simp [replaceChar]
  | cons a l ih => simp [replaceChar, ih]

/-- The composed encoder acts characterwise: escaping backslashes first
means the escapes introduced for quotes, newlines and carriage returns
are never re-escaped. -/
theorem encodeScript_cons (a : Char) (s : List Char) :
    encodeScript (a :: s) = escChar a ++ encodeScript s := by
  by_cases h1 : a = '\\'
  · subst h1; simp [encodeScript, escChar, replaceChar, replaceChar_append]
  · by_cases h2 : a = '\''
    · subst h2; simp [encodeScript, escChar, replaceChar, replaceChar_append]
    · by_cases h3 : a = '\n'
      · subst h3; simp [encodeScript, escChar, replaceChar, replaceChar_append]
      · by_cases h4 : a = '\r'
        · subst h4; simp [encodeScript, escChar, replaceChar, replaceChar_append]
        · simp [encodeScript, escChar, replaceChar, replaceChar_append, h1, h2, h3, h4]

theorem scan_quote (t : List Char) : scanAnsiC ('\'' :: t) = some ([], t) := by
  rw [scanAnsiC.eq_def]
  simp

theorem scan_bs_bs (t : List Char) :
    scanAnsiC ('\\' :: '\\' :: t) = consHd '\\' (scanAnsiC t) := by
  rw [scanAnsiC.eq_def]
  simp

theorem scan_bs_quote (t : List Char) :
    scanAnsiC ('\\' :: '\'' :: t) = consHd '\'' (scanAnsiC t) := by
  rw [scanAnsiC.eq_def]
  simp

theorem scan_bs_n (t : List Char) :
    scanAnsiC ('\\' :: 'n' :: t) = consHd '\n' (scanAnsiC t) := by
  rw [scanAnsiC.eq_def]
  simp

theorem scan_bs_r (t : List Char) :
    scanAnsiC ('\\' :: 'r' :: t) = consHd '\r' (scanAnsiC t) := by
  rw [scanAnsiC.eq_def]
  simp

theorem scan_plain (a : Char) (t : List Char) (h1 : a ≠ '\'') (h2 : a ≠ '\\') :
    scanAnsiC (a :: t) = consHd a (scanAnsiC t) := by
  rw [scanAnsiC.eq_def]
  simp [h1, h2]

/-- Scanning the encoded body followed by the closing quote decodes to
exactly the original script and stops at that closing quote. -/
theorem scanAnsiC_encodeScript (s : List Char) :
    scanAnsiC (encodeScript s ++ ['\'']) = some (s, []) := by
  induction s with
  | nil =>
    have h : encodeScript [] = [] := rfl
    rw [h, List.nil_append, scan_quote]
  | cons a s ih =>
    rw [encodeScript_cons, List.append_assoc]
    by_cases h1 : a = '\\'
    · subst h1
      have he : escChar '\\' = ['\\', '\\'] := rfl
      rw [he]
      show scanAnsiC ('\\' :: '\\' :: (encodeScript s ++ ['\''])) = _
      rw [scan_bs_bs, ih]; rfl
    · by_cases h2 : a = '\''
      · subst h2
        have he : escChar '\'' = ['\\', '\''] := rfl
        rw [he]
        show scanAnsiC ('\\' :: '\'' :: (encodeScript s ++ ['\''])) = _
        rw [scan_bs_quote, ih]; rfl
      · by_cases h3 : a = '\n'
        · subst h3
          have he : escChar '\n' = ['\\', 'n'] := rfl
          rw [he]
          show scanAnsiC ('\\' :: 'n' :: (encodeScript s ++ ['\''])) = _
          rw [scan_bs_n, ih]; rfl
        · by_cases h4 : a = '\r'
          · subst h4
            have he : escChar '\r' = ['\\', 'r'] := rfl
            rw [he]
            show scanAnsiC ('\\' :: 'r' :: (encodeScript s ++ ['\''])) = _
            rw [scan_bs_r, ih]; rfl
          · have he : escChar a = [a] := by simp [escChar, h1, h2, h3, h4]
            rw [he]
            show scanAnsiC (a :: (encodeScript s ++ ['\''])) = _
            rw [scan_plain a _ h2 h1, ih]; rfl

/-- C2: for every script text `S` — including texts with embedded single
quotes, backslashes, newlines and carriage returns — the encoder of
`main` produces one well-formed `$'...'` token whose ANSI-C decoding by
the remote shell reproduces `S` exactly and consumes the whole token:
decode(encode(S)) = S. -/
theorem c2_roundtrip (s : List Char) :
    ansiCDecodeToken (ansiCQuote s) = some (s, []) := by
  have h : ansiCDecodeToken (ansiCQuote s) = scanAnsiC (encodeScript s ++ ['\'']) := rfl
  rw [h, scanAnsiC_encodeScript]

/-- Split a character list at newline characters; the semantics of
`echo "$var"` writing the lines of `var` to the artifact file.  The empty
string yields one empty line, and a trailing newline yields a final empty
line, matching how the shell variable's characters land in the file. -/
def splitLinesL : List Char → List (List Char)
  | [] => [[]]
  | c :: cs =>
    match splitLinesL cs with
    | [] => [[]]
    | l :: ls => if c = '\n' then [] :: l :: ls else (c :: l) :: ls

/-- Lines of a string, split at newline characters. -/
def splitLines (s : String) : List String :=
  (splitLinesL s.data).map (fun l => String.mk l)

/-- Bash `${out##*$'\n'}`: remove the longest prefix matching `*<newline>`,
i.e. keep the characters after the last newline (the whole string when it
has no newline). -/
def afterLastNL (s : String) : String :=
  String.mk ((s.data.reverse.takeWhile (fun c => c ≠ '\n')).reverse)

/-- Bash `${out%$'\n'*}`: remove the shortest suffix matching `<newline>*`,
i.e. keep the characters before the last newline (the whole string when it
has no newline). -/
def beforeLastNL (s : String) : String :=
  if s.data.any (fun c => c = '\n') then
    String.mk (((s.data.reverse.dropWhile (fun c => c ≠ '\n')).tail).reverse)
  else s

/-- Environment of one execution of the remote diagnostic script
(src/gameify/main.py lines 75-204): the data each module's check command
produces.  `out0` is the `oc get pods` output of module 0; `id1`, `id2`,
`id4` and `taskruns5` are the `jq`-extracted strings of modules 1, 2, 4
and 5 (after command substitution stripped trailing newlines); `body3`
and `body6` are the HTTP response bodies of modules 3 and 6, and
`status3` and `status6` the HTTP status codes that the `curl -w` http_code
format appends to them. -/
structure RemoteEnv where
  out0 : String
  id1 : String
  id2 : String
  body3 : String
  status3 : String
  id4 : String
  taskruns5 : String
  body6 : String
  status6 : String
deriving DecidableEq

/-- Module 0 payload: the lines of the `oc get pods -n patient-portal`
output. -/
def pl0 (env : RemoteEnv) : List String := splitLines env.out0

/-- Module 0 predicate: `echo "$out" | grep '^frontend-' | grep -q
'Running'` — some output line starts with `frontend-` and contains
`Running`. -/
def ok0 (env : RemoteEnv) : Bool :=
  (pl0 env).any (fun l => isPrefixL "frontend-".data l.data && hasSubstr "Running" l)

/-- Module 1 payload: the lines of the extracted policy id. -/
def pl1 (env : RemoteEnv) : List String := splitLines env.id1

/-- Module 1 predicate: `[ -n "$policy_id" ]`. -/
def ok1 (env : RemoteEnv) : Bool := env.id1 != ""

/-- Module 2 payload: the lines of the extracted report id. -/
def pl2 (env : RemoteEnv) : List String := splitLines env.id2

/-- Module 2 predicate: `[ -n "$report_id" ]`. -/
def ok2 (env : RemoteEnv) : Bool := env.id2 != ""

/-- Module 3 captured output: curl writes the response body and then,
because its `-w` http_code format has no preceding newline,
appends the status code directly after the body's last character. -/
def out3 (env : RemoteEnv) : String := env.body3 ++ env.status3

/-- Module 3 `code` variable: `code="${out##*$'\n'}"`. -/
def code3 (env : RemoteEnv) : String := afterLastNL (out3 env)

/-- Module 3 `body` variable: `body="${out%$'\n'*}"`. -/
def bodyv3 (env : RemoteEnv) : String := beforeLastNL (out3 env)

/-- Module 3 predicate: `[ "$code" = "200" ]`. -/
def ok3 (env : RemoteEnv) : Bool := code3 env == "200"

/-- Module 3 payload: the lines of the `body` variable. -/
def pl3 (env : RemoteEnv) : List String := splitLines (bodyv3 env)

/-- Module 4 payload: the lines of the extracted Alpine policy id. -/
def pl4 (env : RemoteEnv) : List String := splitLines env.id4

/-- Module 4 predicate: `[ -n "$policy_id" ]`. -/
def ok4 (env : RemoteEnv) : Bool := env.id4 != ""

/-- Module 5 payload: the lines of the succeeded taskrun names. -/
def pl5 (env : RemoteEnv) : List String := splitLines env.taskruns5

/-- Module 5 predicate: `eq=0` iff `[ -z "$taskruns" ]` fails, and the
marker is success iff `eq` is 0, i.e. iff the extracted string is
non-empty. -/
def ok5 (env : RemoteEnv) : Bool := env.taskruns5 != ""

/-- Module 6 captured output: here the `-w` format starts with a literal
newline, so curl appends a newline and then the status code after the
body. -/
def out6 (env : RemoteEnv) : String := env.body6 ++ "\n" ++ env.status6

/-- Module 6 `code` variable: `code="${out##*$'\n'}"`. -/
def code6 (env : RemoteEnv) : String := afterLastNL (out6 env)

/-- Module 6 `body` variable: `body="${out%$'\n'*}"`. -/
def bodyv6 (env : RemoteEnv) : String := beforeLastNL (out6 env)

/-- Module 6 predicate: `[ "$code" = "200" ]`. -/
def ok6 (env : RemoteEnv) : Bool := code6 env == "200"

/-- Module 6 payload: the lines of the `body` variable. -/
def pl6 (env : RemoteEnv) : List String := splitLines (bodyv6 env)

/-- The marker line `Module <i> success`. -/
def markerS (i : Nat) : String := "Module " ++ toString i ++ " success"

/-- The marker line `Module <i> failed`. -/
def markerF (i : Nat) : String := "Module " ++ toString i ++ " failed"

/-- The marker line module `i` appends given the outcome of its check. -/
def mline (i : Nat) (ok : Bool) : String := if ok then markerS i else markerF i

/-- Line `l` is one of module `i`'s two marker lines. -/
def isMarker (i : Nat) (l : String) : Bool := l == markerS i || l == markerF i

/-- The lines one module appends to the artifact: its marker line, its
output header, the payload lines, and the `---` separator. -/
def mblock (i : Nat) (ok : Bool) (hdr : String) (pl : List String) : List String :=
  mline i ok :: hdr :: (pl ++ ["---"])

/-- Module 0 output header. -/
def hdr0 : String := "Module 0 output:"

/-- Module 1 output header. -/
def hdr1 : String := "Module 1 output (finished-1-policy id):"

/-- Module 2 output header. -/
def hdr2 : String := "Module 2 output (frontend-vuln-report id):"

/-- Module 3 output header: `echo "Module 3 output (http $code):"`. -/
def hdr3 (env : RemoteEnv) : String := "Module 3 output (http " ++ code3 env ++ "):"

/-- Module 4 output header. -/
def hdr4 : String := "Module 4 output (Alpine policy id):"

/-- Module 5 output header. -/
def hdr5 : String := "Module 5 output (succeeded taskruns):"

/-- Module 6 output header: `echo "Module 6 output (http $code):"`. -/
def hdr6 (env : RemoteEnv) : String := "Module 6 output (http " ++ code6 env ++ "):"

/-- The seven module blocks of the script, in declaration order: outcome,
header, payload for modules 0 to 6. -/
def blocksOf (env : RemoteEnv) : List (Bool × String × List String) :=
  [(ok0 env, hdr0, pl0 env), (ok1 env, hdr1, pl1 env), (ok2 env, hdr2, pl2 env),
   (ok3 env, hdr3 env, pl3 env), (ok4 env, hdr4, pl4 env), (ok5 env, hdr5, pl5 env),
   (ok6 env, hdr6 env, pl6 env)]

/-- Render the module blocks starting at module index `i`, followed by
the final `Completion` line the script appends after all modules. -/
def renderFrom : Nat → List (Bool × String × List String) → List String
  | _, [] => ["Completion"]
  | i, (ok, hdr, pl) :: rest => mblock i ok hdr pl ++ renderFrom (i + 1) rest

/-- The remote artifact file produced by one complete execution of the
script (no `errexit`: every module runs whatever the outcomes): the
`Starting script execution...` line written with `>`, then the seven
module blocks in order, then the `Completion` line. -/
def artifact (env : RemoteEnv) : List String :=
  "Starting script execution..." :: renderFrom 0 (blocksOf env)

/-- Line `l` is not one of the fourteen module marker lines and not the
`Completion` sentinel; payload lines with this property cannot be confused
with the script's own structural lines. -/
def cleanLine (l : String) : Prop :=
  (∀ i, i < 7 → isMarker i l = false) ∧ l ≠ "Completion"

instance : DecidablePred cleanLine := fun l => by
  unfold cleanLine
  infer_instance

/-- No payload line produced by any module's check command collides with
a marker line or the `Completion` sentinel.  Arbitrary command output can
in principle contain such a line (the artifact is a plain text file), so
the uniqueness claims below are relative to this non-collision side
condition. -/
def cleanEnv (env : RemoteEnv) : Prop :=
  ∀ b ∈ blocksOf env, ∀ l ∈ b.2.2, cleanLine l

instance (env : RemoteEnv) : Decidable (cleanEnv env) := by
  unfold cleanEnv
  infer_instance

/-- A module's marker line is recognised by `isMarker k` exactly for its
own index. -/
theorem isMarker_mline_eq : ∀ i, i < 7 → ∀ k, k < 7 → ∀ ok : Bool,
    isMarker i (mline k ok) = decide (i = k) := by decide

/-- The separator line is not a marker line. -/
theorem isMarker_dashes : ∀ i, i < 7 → isMarker i "---" = false := by decide

/-- The initial line of the artifact is not a marker line. -/
theorem isMarker_start_line : ∀ i, i < 7 → isMarker i "Starting script execution..." = false := by
  decide

/-- The `Completion` sentinel is not a marker line. -/
theorem isMarker_completion : ∀ i, i < 7 → isMarker i "Completion" = false := by decide

/-- No marker line is the `Completion` sentinel. -/
theorem mline_ne_completion : ∀ k, k < 7 → ∀ ok : Bool, mline k ok ≠ "Completion" := by decide

/-- Any string whose tenth character is `o` — as in `Module <i> output` —
is neither a marker line (tenth character `s` or `f`), nor the
`Completion` sentinel (tenth character `n`). -/
theorem header_safe (s : String) (h : s.data[9]? = some 'o') : cleanLine s := by
  have hne : ∀ t : String, t.data[9]? ≠ some 'o' → s ≠ t := by
    intro t ht heq
    rw [heq] at h
    exact ht h
  constructor
  · intro i hi
    have h1 : s ≠ markerS i := hne _ (by interval_cases i <;> decide)
    have h2 : s ≠ markerF i := hne _ (by interval_cases i <;> decide)
    simp [isMarker, h1, h2]
  · exact hne _ (by decide)

/-- The module 3 header has `o` as its tenth character whatever the
interpolated `$code` value is. -/
theorem hdr3_char9 (env : RemoteEnv) : (hdr3 env).data[9]? = some 'o' := by
  have hd : (hdr3 env).data = "Module 3 output (http ".data ++ ((code3 env).data ++ "):".data) := by
    simp [hdr3, String.data_append, List.append_assoc]
  rw [hd, List.getElem?_append]
  rw [if_pos (by decide : (9 : Nat) < "Module 3 output (http ".data.length)]
  decide

/-- The module 6 header has `o` as its tenth character whatever the
interpolated `$code` value is. -/
theorem hdr6_char9 (env : RemoteEnv) : (hdr6 env).data[9]? = some 'o' := by
  have hd : (hdr6 env).data = "Module 6 output (http ".data ++ ((code6 env).data ++ "):".data) := by
    simp [hdr6, String.data_append, List.append_assoc]
  rw [hd, List.getElem?_append]
  rw [if_pos (by decide : (9 : Nat) < "Module 6 output (http ".data.length)]
  decide

/-- Under the non-collision side condition, every block of the script has
a header that cannot be mistaken for a marker or the sentinel, and
payload lines with the same property. -/
theorem blocksOf_safe (env : RemoteEnv) (H : cleanEnv env) :
    ∀ b ∈ blocksOf env, cleanLine b.2.1 ∧ ∀ l ∈ b.2.2, cleanLine l := by
  intro b hb
  refine ⟨?_, fun l hl => H b hb l hl⟩
  simp [blocksOf] at hb
  rcases hb with h | h | h | h | h | h | h <;> subst h
  · exact header_safe hdr0 (by decide)
  · exact header_safe hdr1 (by decide)
  · exact header_safe hdr2 (by decide)
  · exact header_safe (hdr3 env) (hdr3_char9 env)
  · exact header_safe hdr4 (by decide)
  · exact header_safe hdr5 (by decide)
  · exact header_safe (hdr6 env) (hdr6_char9 env)

/-- Rendering blocks for modules `start, start+1, ...` contributes
exactly one marker line for module `i` when `i` falls in the rendered
range, and none otherwise. -/
theorem countP_renderFrom (i : Nat) (hi : i < 7) :
    ∀ (start : Nat) (bs : List (Bool × String × List String)),
      start + bs.length ≤ 7 →
      (∀ b ∈ bs, cleanLine b.2.1 ∧ ∀ l ∈ b.2.2, cleanLine l) →
      (renderFrom start bs).countP (isMarker i)
        = if start ≤ i ∧ i < start + bs.length then 1 else 0
  | start, [], hlen, hsafe => by
      rw [if_neg (by simp only [List.length_nil]; omega)]
      simp [renderFrom, List.countP_cons, isMarker_completion i hi]
  | start, (ok, hdr, pl) :: rest, hlen, hsafe => by
      have hstart : start < 7 := by simp at hlen; omega
      have hhdr : isMarker i hdr = false := (hsafe (ok, hdr, pl) (by simp)).1.1 i hi
      have hpl : pl.countP (isMarker i) = 0 :=
        List.countP_eq_zero.mpr
          (fun l hl => by simp [((hsafe (ok, hdr, pl) (by simp)).2 l hl).1 i hi])
      have hm : isMarker i (mline start ok) = decide (i = start) :=
        isMarker_mline_eq i hi start hstart ok
      have ih := countP_renderFrom i hi (start + 1) rest (by simp at hlen; omega)
        (fun b hb => hsafe b (by simp [hb]))
      have hblock : (mblock start ok hdr pl).countP (isMarker i)
          = if i = start then 1 else 0 := by
        simp [mblock, List.countP_cons, List.countP_append, hhdr, hpl,
          isMarker_dashes i hi, hm]
      have hsplit : (renderFrom start ((ok, hdr, pl) :: rest)).countP (isMarker i)
          = (if i = start then 1 else 0)
            + (if start + 1 ≤ i ∧ i < start + 1 + rest.length then 1 else 0) := by
        simp [renderFrom, List.countP_append, hblock, ih]
      rw [hsplit]
      simp only [List.length_cons]
      split_ifs <;> omega

/-- When no line of the first list satisfies the predicate, the first
match in the concatenation lies in the second list. -/
theorem findIdx_append_zero (p : String → Bool) (l1 l2 : List String)
    (h : l1.countP p = 0) :
    (l1 ++ l2).findIdx p = l1.length + l2.findIdx p := by
  induction l1 with
  | nil => simp
  | cons a l ih =>
    have hpa : p a = false := by
      rw [List.countP_cons] at h
      by_cases hp : p a = true
      · simp [hp] at h
      · simpa using hp
    have hl : l.countP p = 0 := by
      rw [List.countP_cons, hpa] at h
      simpa using h
    simp [List.findIdx_cons, hpa, ih hl]
    omega

/-- Position of module `i`'s marker line inside the rendered blocks: the
sum of the lengths of the earlier blocks (each block is its marker, its
header, its payload, and the separator: `payload length + 3` lines). -/
theorem findIdx_renderFrom (i : Nat) (hi : i < 7) :
    ∀ (start : Nat) (bs : List (Bool × String × List String)),
      start ≤ i → i < start + bs.length → start + bs.length ≤ 7 →
      (∀ b ∈ bs, cleanLine b.2.1 ∧ ∀ l ∈ b.2.2, cleanLine l) →
      (renderFrom start bs).findIdx (isMarker i)
        = ((bs.take (i - start)).map (fun b => b.2.2.length + 3)).sum
  | start, [], h1, h2, _, _ => by
      simp at h2
      omega
  | start, (ok, hdr, pl) :: rest, h1, h2, hlen, hsafe => by
      by_cases his : i = start
      · subst his
        have hm : isMarker i (mline i ok) = true := by
          rw [isMarker_mline_eq i hi i hi]
          simp
        simp [renderFrom, mblock, List.findIdx_cons, hm, Nat.sub_self]
      · have hstart : start < 7 := by omega
        have hhdr : isMarker i hdr = false := (hsafe (ok, hdr, pl) (by simp)).1.1 i hi
        have hpl : pl.countP (isMarker i) = 0 :=
          List.countP_eq_zero.mpr
            (fun l hl => by simp [((hsafe (ok, hdr, pl) (by simp)).2 l hl).1 i hi])
        have hm : isMarker i (mline start ok) = false := by
          rw [isMarker_mline_eq i hi start hstart]
          simp [his]
        have hm0 : (mblock start ok hdr pl).countP (isMarker i) = 0 := by
          simp [mblock, List.countP_cons, List.countP_append, hhdr, hpl, hm,
            isMarker_dashes i hi]
        have ih := findIdx_renderFrom i hi (start + 1) rest (by omega)
          (by simp at h2 ⊢; omega) (by simp at hlen ⊢; omega)
          (fun b hb => hsafe b (by simp [hb]))
        have hr : renderFrom start ((ok, hdr, pl) :: rest)
            = mblock start ok hdr pl ++ renderFrom (start + 1) rest := rfl
        rw [hr, findIdx_append_zero _ _ _ hm0, ih]
        have hsub : i - start = (i - (start + 1)) + 1 := by omega
        rw [hsub]
        simp [mblock, List.take_succ_cons]

/-- The rendered blocks contain the `Completion` sentinel exactly once,
appended after the last module block. -/
theorem count_completion_renderFrom :
    ∀ (start : Nat) (bs : List (Bool × String × List String)),
      start + bs.length ≤ 7 →
      (∀ b ∈ bs, cleanLine b.2.1 ∧ ∀ l ∈ b.2.2, cleanLine l) →
      (renderFrom start bs).count "Completion" = 1
  | start, [], _, _ => by simp [renderFrom]
  | start, (ok, hdr, pl) :: rest, hlen, hsafe => by
      have hstart : start < 7 := by simp at hlen; omega
      have hhdr : hdr ≠ "Completion" := (hsafe (ok, hdr, pl) (by simp)).1.2
      have hml : mline start ok ≠ "Completion" := mline_ne_completion start hstart ok
      have hpl : pl.count "Completion" = 0 := by
        rw [List.count_eq_zero]
        intro hmem
        exact ((hsafe (ok, hdr, pl) (by simp)).2 _ hmem).2 rfl
      have ih := count_completion_renderFrom (start + 1) rest (by simp at hlen; omega)
        (fun b hb => hsafe b (by simp [hb]))
      simp [renderFrom, mblock, List.count_append, List.count_cons, ih, hhdr, hml, hpl]

/-- The last line of the rendered blocks is the `Completion` sentinel. -/
theorem renderFrom_getLast :
    ∀ (start : Nat) (bs : List (Bool × String × List String)),
      (renderFrom start bs).getLast? = some "Completion"
  | start, [] => by simp [renderFrom]
  | start, (ok, hdr, pl) :: rest => by
      have ih := renderFrom_getLast (start + 1) rest
      have hne : renderFrom (start + 1) rest ≠ [] := by
        intro h
        rw [h] at ih
        simp at ih
      have hr : renderFrom start ((ok, hdr, pl) :: rest)
          = mblock start ok hdr pl ++ renderFrom (start + 1) rest := rfl
      rw [hr, List.getLast?_append_of_ne_nil _ hne, ih]

/-- Sums of longer prefixes of a list of positive numbers are strictly
larger. -/
theorem sum_take_lt (L : List Nat) (hpos : ∀ x ∈ L, 0 < x) :
    ∀ i j, i < j → j ≤ L.length → (L.take i).sum < (L.take j).sum := by
  intro i j hij hj
  induction j with
  | zero => omega
  | succ n ihn =>
    have hn : n < L.length := by omega
    have h1 : (L.take (n + 1)).sum = (L.take n).sum + L[n] := by
      rw [← List.take_concat_get' L n hn, List.sum_append]
      simp
    have hx : 0 < L[n] := hpos _ (List.getElem_mem hn)
    rcases Nat.lt_or_ge i n with hlt | hge
    · have := ihn hlt (by omega)
      omega
    · have hin : i = n := by omega
      subst hin
      omega

/-- C1: in every complete execution of the remote script — regardless of
each module's individual success or failure, with no short-circuiting —
the artifact contains exactly one marker line `Module <i> success` or
`Module <i> failed` for each of the seven modules (provided no payload
line collides with a marker or sentinel line), the markers occur in
increasing module order, each inside its block of header, payload and
separator, and the literal line `Completion` occurs exactly once, as the
artifact's last line, after all seven module blocks. -/
theorem c1_artifact_report (env : RemoteEnv) (H : cleanEnv env) :
    (∀ i, i < 7 → (artifact env).countP (isMarker i) = 1)
    ∧ (∀ j, j < 7 → ∀ i, i < j →
        (artifact env).findIdx (isMarker i) < (artifact env).findIdx (isMarker j))
    ∧ (artifact env).count "Completion" = 1
    ∧ (artifact env).getLast? = some "Completion" := by
  have hsafe := blocksOf_safe env H
  have hlen : (blocksOf env).length = 7 := by simp [blocksOf]
  refine ⟨?_, ?_, ?_, ?_⟩
  · intro i hi
    have hc := countP_renderFrom i hi 0 (blocksOf env) (by omega) hsafe
    rw [if_pos ⟨Nat.zero_le i, by omega⟩] at hc
    simp [artifact, List.countP_cons, hc, isMarker_start_line i hi]
  · intro j hj i hij
    have hi : i < 7 := by omega
    have hfi := findIdx_renderFrom i hi 0 (blocksOf env) (Nat.zero_le i) (by omega)
      (by omega) hsafe
    have hfj := findIdx_renderFrom j hj 0 (blocksOf env) (Nat.zero_le j) (by omega)
      (by omega) hsafe
    have hcons : ∀ k, k < 7 → (artifact env).findIdx (isMarker k)
        = (renderFrom 0 (blocksOf env)).findIdx (isMarker k) + 1 := by
      intro k hk
      simp [artifact, List.findIdx_cons, isMarker_start_line k hk]
    rw [hcons i hi, hcons j hj, hfi, hfj]
    have hmt : ∀ n, (((blocksOf env).take n).map (fun b => b.2.2.length + 3)).sum
        = (((blocksOf env).map (fun b => b.2.2.length + 3)).take n).sum := by
      intro n
      rw [List.map_take]
    rw [Nat.sub_zero, Nat.sub_zero, hmt, hmt]
    have hlt := sum_take_lt ((blocksOf env).map (fun b => b.2.2.length + 3))
      (by
        intro x hx
        rcases List.mem_map.mp hx with ⟨b, _, rfl⟩
        omega)
      i j hij (by simp [hlen]; omega)
    omega
  · have hc := count_completion_renderFrom 0 (blocksOf env) (by omega) hsafe
    have hs : ("Starting script execution..." : String) ≠ "Completion" := by decide
    simp [artifact, List.count_cons, hc, hs]
  · have ih := renderFrom_getLast 0 (blocksOf env)
    have hne : renderFrom 0 (blocksOf env) ≠ [] := by
      intro h
      rw [h] at ih
      simp at ih
    have hc : artifact env = ["Starting script execution..."] ++ renderFrom 0 (blocksOf env) := rfl
    rw [hc, List.getLast?_append_of_ne_nil _ hne, ih]

/-- C1 witness: the run in which every check produces empty output
satisfies the non-collision condition, and its artifact has the claimed
shape. -/
theorem c1_witness :
    cleanEnv (RemoteEnv.mk "" "" "" "" "" "" "" "" "")
    ∧ ((∀ i, i < 7 →
          (artifact (RemoteEnv.mk "" "" "" "" "" "" "" "" "")).countP (isMarker i) = 1)
      ∧ (∀ j, j < 7 → ∀ i, i < j →
          (artifact (RemoteEnv.mk "" "" "" "" "" "" "" "" "")).findIdx (isMarker i)
            < (artifact (RemoteEnv.mk "" "" "" "" "" "" "" "" "")).findIdx (isMarker j))
      ∧ (artifact (RemoteEnv.mk "" "" "" "" "" "" "" "" "")).count "Completion" = 1
      ∧ (artifact (RemoteEnv.mk "" "" "" "" "" "" "" "" "")).getLast? = some "Completion") :=
  ⟨by decide, c1_artifact_report _ (by decide)⟩

/-- C9: evaluation at the failing input.  Module 3's `curl` uses the
`-w` http_code format with no preceding newline, so for a response with
body `x` (no trailing newline) and HTTP status 200 the captured output is
`x200`, the extracted `code` is `x200`, and the script appends
`Module 3 failed` even though the HTTP status equals 200 — contradicting
the claimed `success iff status = 200`.  Module 6, whose `-w` format
starts with a newline, does satisfy the claim at the same status. -/
theorem c9_module3_http_bug :
    (RemoteEnv.mk "" "" "" "x" "200" "" "" "" "200").status3 = "200"
    ∧ ok3 (RemoteEnv.mk "" "" "" "x" "200" "" "" "" "200") = false
    ∧ (artifact (RemoteEnv.mk "" "" "" "x" "200" "" "" "" "200")).count (markerF 3) = 1
    ∧ (artifact (RemoteEnv.mk "" "" "" "x" "200" "" "" "" "200")).count (markerS 3) = 0
    ∧ ok6 (RemoteEnv.mk "" "" "" "x" "200" "" "" "" "200") = true
    ∧ (RemoteEnv.mk "" "" "" "x" "200" "" "" "" "200").status6 = "200" := by decide
